import Mathlib

/-!
Verification of the request-dispatch core described in the design spec of
`odoo-fast-mcp` against the repository's `src/server.py`.

The repository itself is a thin demo built on the `fastmcp` framework: the
handlers (`call_api`, `get_user_profile`, `get_details`, `process_image`,
`pattern_example`, the three prompts) live in `src/server.py` and are embedded
here directly from that source.  The engine the spec describes — the URI
Template Matcher (§4.1), the Schema Coercer (§4.2) and the Elicitation Session
state machine (§4.4) — is framework code that is not part of the repository's
sources, so those components are modelled from the spec's own words; each such
definition carries a doc comment starting `Modelled from the spec:`.
-/

/-- Strings are manipulated as explicit character lists so that the matching
algorithm of §4.1 (segment splitting, query parsing) is a plain recursive
function. -/
abbrev Chars := List Char

/-- Split a character list at the first occurrence of `c`: returns the part
before it and, when `c` occurs, the part after it. -/
def breakAt (c : Char) : Chars → Chars × Option Chars
  | [] => ([], none)
  | x :: xs =>
    if x = c then ([], some xs)
    else
      let r := breakAt c xs
      (x :: r.1, r.2)

/-- Split a character list on every occurrence of `c`; the result is the list
of (possibly empty) fields, never empty itself. -/
def splitOnChar (c : Char) : Chars → List Chars
  | [] => [[]]
  | x :: xs =>
    if x = c then [] :: splitOnChar c xs
    else
      match splitOnChar c xs with
      | [] => [[x]]
      | a :: rest => (x :: a) :: rest

/-- Join character lists with the separator `c` between consecutive elements
(inverse of `splitOnChar` on separator-free fields). -/
def joinWith (c : Char) : List Chars → Chars
  | [] => []
  | [x] => x
  | x :: xs => x ++ c :: joinWith c xs

/-- One element of a compiled template's path skeleton: either a literal
segment (matched byte-for-byte) or a path variable `{name}` (binds one
non-empty segment).  Modelled from the spec: §4.1 template grammar. -/
inductive Seg where
  | lit (s : Chars)
  | var (name : Chars)
deriving DecidableEq, Repr

/-- Modelled from the spec: the compiled form of a URI template (§3
ResourceTemplate / §4.1 `compile`): an ordered path skeleton of literal and
variable segments (the `/`-separated split of the template minus its query
block) and the query-expansion block's recognized keys, each with the
declared default rendered as a string (path/query values are strings at this
layer; typed coercion happens in the Coercer, §4.2). -/
structure Template where
  segs : List Seg
  queryKeys : List (Chars × Chars)
deriving DecidableEq, Repr

/-- Fill one skeleton segment from a path-variable assignment. -/
def fillSeg (pv : Chars → Chars) : Seg → Chars
  | .lit s => s
  | .var n => pv n

/-- Modelled from the spec: URI generation from a template and an assignment
of its path variables (`pv`) and query variables (`qv`): the filled skeleton
joined with `/`, followed — when the template has a query block — by `?` and
the `&`-joined `key=value` pairs for every recognized key. -/
def generate (t : Template) (pv qv : Chars → Chars) : Chars :=
  joinWith '/' (t.segs.map (fillSeg pv)) ++
    (if t.queryKeys.isEmpty then []
     else '?' :: joinWith '&' (t.queryKeys.map fun kd => kd.1 ++ '=' :: qv kd.1))

/-- Walk the skeleton against the URI's path segments: literal segments must
match exactly, variable segments bind one non-empty segment; fail if segment
counts differ.  Modelled from the spec: §4.1 matching algorithm. -/
def matchSegs : List Seg → List Chars → Option (List (Chars × Chars))
  | [], [] => some []
  | .lit s :: rest, seg :: segs =>
    if seg = s then matchSegs rest segs else none
  | .var n :: rest, seg :: segs =>
    if seg = [] then none else (matchSegs rest segs).map ((n, seg) :: ·)
  | _, _ => none

/-- Split one `key=value` query field at its first `=` (a field with no `=`
gets the empty value). -/
def parsePair (p : Chars) : Chars × Chars :=
  match breakAt '=' p with
  | (k, some v) => (k, v)
  | (k, none) => (k, [])

/-- Split a query string on `&` into `key=value` pairs. -/
def parseQueryStr (q : Chars) : List (Chars × Chars) :=
  (splitOnChar '&' q).map parsePair

/-- First value bound to `k` in a parsed query, if any. -/
def lookupQ (k : Chars) : List (Chars × Chars) → Option Chars
  | [] => none
  | (k2, v) :: rest => if k2 = k then some v else lookupQ k rest

/-- Modelled from the spec: `Matcher.match` (§4.1).  Split the URI at the
first `?` into path and optional query string; walk the skeleton against the
`/`-split path; for every recognized query key present in the query string
bind its value, for absent keys bind the declared default; unrecognized query
keys are ignored.  Returns the path-variable bindings (in order of
appearance) and one binding per recognized query key; all values are strings
at this layer. -/
def matchURI (t : Template) (uri : Chars) :
    Option (List (Chars × Chars) × List (Chars × Chars)) :=
  let (path, q) := breakAt '?' uri
  match matchSegs t.segs (splitOnChar '/' path) with
  | none => none
  | some pvs =>
    let pairs := match q with
      | none => []
      | some qs => parseQueryStr qs
    some (pvs, t.queryKeys.map fun kd => (kd.1, (lookupQ kd.1 pairs).getD kd.2))

/-- The path-variable bindings `generate` uses, in order of appearance. -/
def varBindings (t : Template) (pv : Chars → Chars) : List (Chars × Chars) :=
  t.segs.filterMap fun s =>
    match s with
    | .var n => some (n, pv n)
    | .lit _ => none

/-- Validity of a path-variable assignment for one skeleton segment: a
variable's value must be a non-empty segment (the §4.1 grammar: each
placeholder matches exactly one non-empty segment). -/
def varNonempty (pv : Chars → Chars) : Seg → Bool
  | .var n => !(pv n).isEmpty
  | .lit _ => true

/-- Compiled form of the template `"api://{endpoint}{?version,limit,offset}"`
registered on `call_api` (src/server.py:130), with the declared defaults
`version=1, limit=10, offset=0` of src/server.py:131. -/
def apiTemplate : Template :=
  { segs := [.lit "api:".toList, .lit [], .var "endpoint".toList]
    queryKeys := [("version".toList, "1".toList),
                  ("limit".toList, "10".toList),
                  ("offset".toList, "0".toList)] }

/-- Compiled form of the template `"users://{user_id}/profile"` registered on
`get_user_profile` (src/server.py:141). -/
def usersTemplate : Template :=
  { segs := [.lit "users:".toList, .lit [], .var "user_id".toList,
             .lit "profile".toList]
    queryKeys := [] }

/-- Compiled form of the template `"resource://{name}/details"` registered on
`get_details` (src/server.py:123). -/
def detailsTemplate : Template :=
  { segs := [.lit "resource:".toList, .lit [], .var "name".toList,
             .lit "details".toList]
    queryKeys := [] }

/-! ## Schema Coercer (§4.2) -/

/-- An untyped or typed parameter value: the loosely-typed scalars the
coercer consumes and produces. -/
inductive Value where
  | vStr (s : String)
  | vInt (n : Int)
  | vBool (b : Bool)
deriving DecidableEq, Repr

/-- A declared parameter type. -/
inductive DType where
  | tInt
  | tBool
  | tStr
deriving DecidableEq, Repr

/-- Modelled from the spec: per-parameter constraints (§3 ParameterSpec):
`ge`/`le` numeric bounds and enumerated `allowed_values`. -/
structure Constraints where
  ge : Option Int := none
  le : Option Int := none
  allowedValues : Option (List String) := none
deriving DecidableEq, Repr

/-- Modelled from the spec: §3 ParameterSpec
`{name, declared_type, required, default, constraints}`. -/
structure ParameterSpec where
  name : String
  declaredType : DType
  required : Bool
  default : Option Value := none
  constraints : Constraints := {}
deriving DecidableEq, Repr

/-- Modelled from the spec: the `CoercionError` taxonomy (§4.2/§7):
`MissingParameter(name)`, `TypeMismatch(name, expected, got)`,
`ConstraintViolation(name, constraint)`. -/
inductive CoercionError where
  | missingParameter (name : String)
  | typeMismatch (name expected got : String)
  | constraintViolation (name constraint : String)
deriving DecidableEq, Repr

/-- Render of a declared type, used in `TypeMismatch`. -/
def DType.describe : DType → String
  | .tInt => "int"
  | .tBool => "bool"
  | .tStr => "str"

/-- Render of a value's kind, used in `TypeMismatch`. -/
def Value.kind : Value → String
  | .vStr _ => "str"
  | .vInt _ => "int"
  | .vBool _ => "bool"

/-- Digit-string to number, `none` when empty or any character is not a
digit. -/
def parseNatDigits (l : Chars) : Option Nat :=
  if l = [] then none
  else if l.all Char.isDigit then
    some (l.foldl (fun a c => a * 10 + (c.toNat - 48)) 0)
  else none

/-- String to integer, accepting an optional leading minus sign. -/
def parseIntStr (s : String) : Option Int :=
  match s.toList with
  | '-' :: rest => (parseNatDigits rest).map (fun n => -(n : Int))
  | l => (parseNatDigits l).map (fun n => (n : Int))

/-- Modelled from the spec: structural conversion to the declared type
(§4.2 rule 3): string→int, string→bool via `{"true","false"}`, same-type
passthrough; anything else is a type mismatch. -/
def convert : DType → Value → Option Value
  | .tInt, .vInt n => some (.vInt n)
  | .tInt, .vStr s => (parseIntStr s).map .vInt
  | .tInt, .vBool _ => none
  | .tBool, .vBool b => some (.vBool b)
  | .tBool, .vStr s =>
    if s = "true" then some (.vBool true)
    else if s = "false" then some (.vBool false)
    else none
  | .tBool, .vInt _ => none
  | .tStr, .vStr s => some (.vStr s)
  | .tStr, _ => none

/-- Modelled from the spec: constraint application (§4.2 rule 4): `ge`/`le`
numeric bounds, then enumerated `allowed_values`; the first violated
constraint is reported. -/
def checkConstraints (name : String) (c : Constraints) (v : Value) :
    Except CoercionError Value :=
  match c.ge, v with
  | some g, .vInt n =>
    if n < g then .error (.constraintViolation name "ge")
    else checkLe
  | _, _ => checkLe
where
  checkLe : Except CoercionError Value :=
    match c.le, v with
    | some u, .vInt n =>
      if u < n then .error (.constraintViolation name "le")
      else checkAllowed
    | _, _ => checkAllowed
  checkAllowed : Except CoercionError Value :=
    match c.allowedValues, v with
    | some vs, .vStr s =>
      if s ∈ vs then .ok v
      else .error (.constraintViolation name "allowed_values")
    | _, _ => .ok v

/-- First value bound to `k` in the raw input mapping. -/
def lookupRaw (k : String) : List (String × Value) → Option Value
  | [] => none
  | (k2, v) :: rest => if k2 = k then some v else lookupRaw k rest

/-- Modelled from the spec: the per-parameter coercion rules of §4.2, in
order: (1) absent key with a default uses the default, not re-type-checked;
(2) absent key with no default fails `MissingParameter` (a parameter with no
default is required); (3) structural conversion, failing `TypeMismatch`;
(4) constraints, failing `ConstraintViolation`. -/
def coerceParam (raw : List (String × Value)) (s : ParameterSpec) :
    Except CoercionError Value :=
  match lookupRaw s.name raw with
  | none =>
    match s.default with
    | some d => .ok d
    | none => .error (.missingParameter s.name)
  | some rv =>
    match convert s.declaredType rv with
    | none => .error (.typeMismatch s.name s.declaredType.describe rv.kind)
    | some v => checkConstraints s.name s.constraints v

/-- Modelled from the spec: `coerce(raw, specs)` (§4.2): parameters are
processed in spec order; the first failure aborts the whole coercion with
that parameter's error, otherwise the fully typed mapping is produced. -/
def coerce (raw : List (String × Value)) :
    List ParameterSpec → Except CoercionError (List (String × Value))
  | [] => .ok []
  | s :: rest =>
    match coerceParam raw s with
    | .error e => .error e
    | .ok v =>
      match coerce raw rest with
      | .error e => .error e
      | .ok tail => .ok ((s.name, v) :: tail)

/-! ## Handlers embedded from src/server.py -/

/-- Embedded from src/server.py:131-138: `call_api` builds the dict
`{endpoint, version, limit, offset}` from its arguments. -/
def call_api (endpoint : String) (version limit offset : Int) :
    List (String × Value) :=
  [("endpoint", .vStr endpoint), ("version", .vInt version),
   ("limit", .vInt limit), ("offset", .vInt offset)]

/-- Embedded from src/server.py:142-145: `get_user_profile` builds
`{id: user_id, name: f"User {user_id}", status: "active"}`. -/
def get_user_profile (user_id : Int) : List (String × Value) :=
  [("id", .vInt user_id), ("name", .vStr ("User " ++ toString user_id)),
   ("status", .vStr "active")]

/-- Embedded from src/server.py:90-95: `process_image` builds the dict with
the original URL, a processed URL whose width field is the target width when
`resize` is set and the text `original` otherwise, and the echoed flags. -/
def process_image (image_url : String) (resize : Bool) (width : Int)
    (format : String) : List (String × Value) :=
  [("original_url", .vStr image_url),
   ("processed_url", .vStr (image_url ++ "?format=" ++ format ++ "&width=" ++
     (if resize then toString width else "original"))),
   ("resized", .vBool resize),
   ("format", .vStr format)]

/-- Parameter specs of `call_api` (src/server.py:131): `endpoint: str`
required, `version: int = 1`, `limit: int = 10`, `offset: int = 0`. -/
def callApiSpecs : List ParameterSpec :=
  [{ name := "endpoint", declaredType := .tStr, required := true },
   { name := "version", declaredType := .tInt, required := false,
     default := some (.vInt 1) },
   { name := "limit", declaredType := .tInt, required := false,
     default := some (.vInt 10) },
   { name := "offset", declaredType := .tInt, required := false,
     default := some (.vInt 0) }]

/-- Parameter spec of `get_user_profile` (src/server.py:142):
`user_id: int` required. -/
def userProfileSpecs : List ParameterSpec :=
  [{ name := "user_id", declaredType := .tInt, required := true }]

/-- Parameter specs of `process_image` (src/server.py:80-86): `image_url:
str` required; `resize: bool = False`; `width: int = 800` with `ge=1,
le=2000`; `format` restricted to `jpeg|png|webp` with default `jpeg`. -/
def processImageSpecs : List ParameterSpec :=
  [{ name := "image_url", declaredType := .tStr, required := true },
   { name := "resize", declaredType := .tBool, required := false,
     default := some (.vBool false) },
   { name := "width", declaredType := .tInt, required := false,
     default := some (.vInt 800),
     constraints := { ge := some 1, le := some 2000 } },
   { name := "format", declaredType := .tStr, required := false,
     default := some (.vStr "jpeg"),
     constraints := { allowedValues := some ["jpeg", "png", "webp"] } }]

/-- The isolated `width` spec of Concrete scenario 3 (§8):
`width: int, ge=1, le=2000, default=800`. -/
def widthSpec : ParameterSpec :=
  { name := "width", declaredType := .tInt, required := false,
    default := some (.vInt 800),
    constraints := { ge := some 1, le := some 2000 } }

/-! ## Dispatcher (§4.5) -/

/-- Outcome of dispatching one request: the handler's result dict, a
coercion failure reported without invoking the handler, or a routing
`NoMatch`. -/
inductive DispatchResult where
  | ok (d : List (String × Value))
  | coercionFailed (e : CoercionError)
  | noMatch
deriving DecidableEq, Repr

/-- Raw mapping handed to the Coercer from a matcher result: every bound
path and query variable as a string value. -/
def rawOfBindings (pvs qvs : List (Chars × Chars)) : List (String × Value) :=
  (pvs ++ qvs).map fun p => (String.mk p.1, Value.vStr (String.mk p.2))

/-- Dispatch of a `api://...` resource fetch (§4.5 pipeline): match the URI
against `call_api`'s template, coerce the string bindings against its specs,
then invoke the handler with the typed arguments. -/
def dispatch_call_api (uri : String) : DispatchResult :=
  match matchURI apiTemplate uri.toList with
  | none => .noMatch
  | some (pvs, qvs) =>
    match coerce (rawOfBindings pvs qvs) callApiSpecs with
    | .error e => .coercionFailed e
    | .ok args =>
      match args with
      | [(_, .vStr endpoint), (_, .vInt version), (_, .vInt limit),
         (_, .vInt offset)] => .ok (call_api endpoint version limit offset)
      | _ => .coercionFailed (.typeMismatch "call_api" "signature" "shape")

/-- Dispatch of a `users://...` resource fetch: match against
`get_user_profile`'s template, coerce `user_id` to int, invoke the
handler. -/
def dispatch_get_user_profile (uri : String) : DispatchResult :=
  match matchURI usersTemplate uri.toList with
  | none => .noMatch
  | some (pvs, qvs) =>
    match coerce (rawOfBindings pvs qvs) userProfileSpecs with
    | .error e => .coercionFailed e
    | .ok args =>
      match args with
      | [(_, .vInt user_id)] => .ok (get_user_profile user_id)
      | _ => .coercionFailed (.typeMismatch "get_user_profile" "signature" "shape")

/-- Dispatch of a `process_image` tool call: coerce the raw arguments
against the declared specs; only on success is the handler invoked. -/
def dispatch_process_image (raw : List (String × Value)) : DispatchResult :=
  match coerce raw processImageSpecs with
  | .error e => .coercionFailed e
  | .ok args =>
    match args with
    | [(_, .vStr image_url), (_, .vBool resize), (_, .vInt width),
       (_, .vStr format)] => .ok (process_image image_url resize width format)
    | _ => .coercionFailed (.typeMismatch "process_image" "signature" "shape")

/-! ## Elicitation Session (§4.4) -/

/-- Payload carried by an elicitation response. -/
inductive Payload where
  | unitP
  | strP (s : String)
  | intP (n : Int)
deriving DecidableEq, Repr

/-- Modelled from the spec: the declared `expected_shape` of an
ElicitationRequest (§3): either none (`response_type=None`) or a scalar type
descriptor; the two shapes `pattern_example` uses are modelled. -/
inductive Shape where
  | noShape
  | stringShape
deriving DecidableEq, Repr

/-- Modelled from the spec: §3 ElicitationOutcome — exactly one of
`Accepted{data}`, `Declined{}`, `Cancelled{}`. -/
inductive Outcome where
  | accepted (data : Payload)
  | declined
  | cancelled
deriving DecidableEq, Repr

/-- Modelled from the spec: what the calling side (or the timeout/disconnect
policy, §5) can produce for a pending elicitation. -/
inductive CallerResponse where
  | accept (payload : Option Payload)
  | decline
  | cancel
  | channelClosed
  | timeout
deriving DecidableEq, Repr

/-- Modelled from the spec: the data a valid accept binds (§4.4): with no
declared shape any accept is `Accepted{data: unit}`; with a declared shape
the payload must match it, else the accept is not valid. -/
def shapeAccepts : Shape → Option Payload → Option Payload
  | .noShape, _ => some .unitP
  | .stringShape, some (.strP s) => some (.strP s)
  | .stringShape, _ => none

/-- Modelled from the spec: resolution of one `AwaitingResponse` session
(§4.4 transitions): a valid accept yields `Accepted{data}`; an accept whose
payload mismatches the declared shape degrades to `Cancelled{}` (never a
crash); decline yields `Declined{}`; cancel, channel close and timeout all
yield `Cancelled{}`. -/
def resolve (sh : Shape) : CallerResponse → Outcome
  | .accept p =>
    match shapeAccepts sh p with
    | some d => .accepted d
    | none => .cancelled
  | .decline => .declined
  | .cancel => .cancelled
  | .channelClosed => .cancelled
  | .timeout => .cancelled

/-- Modelled from the spec: the per-session states of §4.4:
`Idle → AwaitingResponse → Resolved(outcome)`, `Resolved` terminal. -/
inductive SessionState where
  | idle
  | awaitingResponse (sh : Shape)
  | resolved (o : Outcome)
deriving DecidableEq, Repr

/-- An event acting on a session: the handler opens it with a prompt and an
expected shape, or the calling side responds. -/
inductive Event where
  | elicit (prompt : String) (sh : Shape)
  | respond (r : CallerResponse)
deriving DecidableEq, Repr

/-- Modelled from the spec: the transition function of the §4.4 state
machine; `none` means no transition exists (in particular `Resolved` is
terminal, so no session can move past its first outcome). -/
def step : SessionState → Event → Option SessionState
  | .idle, .elicit _ sh => some (.awaitingResponse sh)
  | .awaitingResponse sh, .respond r => some (.resolved (resolve sh r))
  | _, _ => none

/-- Run a session through a list of events; `none` as soon as an event has
no transition. -/
def runSession : SessionState → List Event → Option SessionState
  | s, [] => some s
  | s, e :: es =>
    match step s e with
    | none => none
    | some s2 => runSession s2 es

/-- Textual rendering of an elicitation payload, as Python's f-string
interpolation would show it. -/
def dataString : Payload → String
  | .unitP => "None"
  | .strP s => s
  | .intP n => toString n

/-- Embedded from src/server.py:99-110: `pattern_example` opens a first
elicitation with no response type, returns early only when its outcome
equals `Declined`, then opens a second elicitation with response type `str`
and branches on its outcome: `Accepted` → greeting, `Declined` → "No name
provided", `Cancelled` → "Operation cancelled".  The caller's two responses
are the handler's only inputs; each is resolved by the §4.4 machine. -/
def pattern_example (resp1 resp2 : CallerResponse) : String :=
  let result1 := resolve .noShape resp1
  if result1 = .declined then "Action not approved"
  else
    match resolve .stringShape resp2 with
    | .accepted information => "Hello " ++ dataString information ++ "!"
    | .declined => "No name provided"
    | .cancelled => "Operation cancelled"

/-! ## Prompts embedded from src/server.py -/

/-- A conversational message `{role, content}` (§3 PromptDefinition, §6
prompt envelope). -/
structure Message where
  role : String
  content : String
deriving DecidableEq, Repr

/-- Embedded from src/server.py:149-153: `generate_code_request` returns a
single message asking for code; the framework's `Message(content)` defaults
the role to `user` (spec §3: role is `"user"` or `"assistant"`). -/
def generate_code_request (language task_description : String) : Message :=
  { role := "user"
    content := "Write a " ++ language ++
      " function that performs the following task: " ++ task_description }

/-- Embedded from src/server.py:157-160: `analyze_data` averages its
numbers and compares against the threshold.  The unguarded Python division
`sum(numbers) / len(numbers)` raises on an empty list, embedded as `none`;
real-number division is modelled over `ℚ`. -/
def analyze_data (numbers : List Int) (metadata : List (String × String))
    (threshold : ℚ) : Option String :=
  if numbers.length = 0 then none
  else
    let avg : ℚ := (numbers.sum : ℚ) / (numbers.length : ℚ)
    some ("Average: " ++ toString avg ++ ", above threshold: " ++
      (if threshold < avg then "True" else "False"))

/-- Embedded from src/server.py:164-169: `roleplay_scenario` returns two
messages, the second with the assistant role. -/
def roleplay_scenario (character situation : String) : List Message :=
  [{ role := "user"
     content := "Let's roleplay. You are " ++ character ++
       ". The situation is: " ++ situation },
   { role := "assistant"
     content := "Okay, I understand. I am ready. What happens next?" }]

/-- Modelled from the spec: the §6 prompt invocation envelope for
`generate_code_request` — a single returned `Message` becomes a one-element
message sequence. -/
def invoke_generate_code_request (language task_description : String) :
    Option (List Message) :=
  some [generate_code_request language task_description]

/-- Modelled from the spec: the §6 prompt invocation envelope for
`analyze_data` — a returned string becomes a single user message; a handler
fault yields an error envelope, not messages. -/
def invoke_analyze_data (numbers : List Int)
    (metadata : List (String × String)) (threshold : ℚ) :
    Option (List Message) :=
  (analyze_data numbers metadata threshold).map
    fun s => [{ role := "user", content := s }]

/-- Modelled from the spec: the §6 prompt invocation envelope for
`roleplay_scenario` — the returned message list is the message sequence. -/
def invoke_roleplay_scenario (character situation : String) :
    Option (List Message) :=
  some (roleplay_scenario character situation)

/-- The §6 prompt envelope well-formedness the spec promises: one or more
messages, each with role `user` or `assistant` (the content is a string by
construction). -/
def messagesOk (msgs : List Message) : Prop :=
  msgs ≠ [] ∧ ∀ m ∈ msgs, m.role = "user" ∨ m.role = "assistant"

/-! ## Splitting / joining lemmas for the round-trip property -/

theorem breakAt_not_mem (c : Char) (l : Chars) (h : c ∉ l) :
    breakAt c l = (l, none) := by
  induction l with
  | nil => rfl
  | cons x xs ih =>
    have hx : ¬ x = c := fun hxc => h (hxc ▸ List.mem_cons_self x xs)
    have hxs : c ∉ xs := fun hm => h (List.mem_cons_of_mem x hm)
    simp [breakAt, hx, ih hxs]

theorem breakAt_append (c : Char) (a b : Chars) (h : c ∉ a) :
    breakAt c (a ++ c :: b) = (a, some b) := by
  induction a with
  | nil => simp [breakAt]
  | cons x xs ih =>
    have hx : ¬ x = c := fun hxc => h (hxc ▸ List.mem_cons_self x xs)
    have hxs : c ∉ xs := fun hm => h (List.mem_cons_of_mem x hm)
    simp [breakAt, hx, ih hxs]

theorem splitOnChar_not_mem (c : Char) (l : Chars) (h : c ∉ l) :
    splitOnChar c l = [l] := by
  induction l with
  | nil => rfl
  | cons x xs ih =>
    have hx : ¬ x = c := fun hxc => h (hxc ▸ List.mem_cons_self x xs)
    have hxs : c ∉ xs := fun hm => h (List.mem_cons_of_mem x hm)
    simp [splitOnChar, hx, ih hxs]

theorem splitOnChar_append (c : Char) (a b : Chars) (h : c ∉ a) :
    splitOnChar c (a ++ c :: b) = a :: splitOnChar c b := by
  induction a with
  | nil => simp [splitOnChar]
  | cons x xs ih =>
    have hx : ¬ x = c := fun hxc => h (hxc ▸ List.mem_cons_self x xs)
    have hxs : c ∉ xs := fun hm => h (List.mem_cons_of_mem x hm)
    simp only [List.cons_append, splitOnChar, hx, if_false]
    rw [List.append_eq, ih hxs]

theorem joinWith_not_mem (c d : Char) (hne : c ≠ d) :
    ∀ xss : List Chars, (∀ xs ∈ xss, c ∉ xs) → c ∉ joinWith d xss := by
  intro xss
  induction xss with
  | nil => intro _ hm; simp [joinWith] at hm
  | cons x rest ih =>
    intro h hm
    cases rest with
    | nil => exact h x (List.mem_cons_self x []) (by simpa [joinWith] using hm)
    | cons y rest2 =>
      have hx : c ∉ x := h x (List.mem_cons_self x _)
      have hrest : ∀ xs ∈ y :: rest2, c ∉ xs :=
        fun xs hxs => h xs (List.mem_cons_of_mem x hxs)
      have hjoin : joinWith d (x :: y :: rest2) = x ++ d :: joinWith d (y :: rest2) := rfl
      rw [hjoin] at hm
      rcases List.mem_append.mp hm with hm1 | hm2
      · exact hx hm1
      · rcases List.mem_cons.mp hm2 with rfl | hm3
        · exact hne rfl
        · exact ih hrest hm3

theorem splitOnChar_joinWith (c : Char) :
    ∀ xss : List Chars, xss ≠ [] → (∀ xs ∈ xss, c ∉ xs) →
      splitOnChar c (joinWith c xss) = xss := by
  intro xss
  induction xss with
  | nil => intro hne _; exact absurd rfl hne
  | cons x rest ih =>
    intro _ h
    cases rest with
    | nil =>
      have : joinWith c [x] = x := rfl
      rw [this, splitOnChar_not_mem c x (h x (List.mem_cons_self x []))]
    | cons y rest2 =>
      have hjoin : joinWith c (x :: y :: rest2) = x ++ c :: joinWith c (y :: rest2) := rfl
      rw [hjoin, splitOnChar_append c x _ (h x (List.mem_cons_self x _)),
        ih (List.cons_ne_nil y rest2)
          (fun xs hxs => h xs (List.mem_cons_of_mem x hxs))]

/-- Helper: walking the skeleton against its own filled segments succeeds
and binds exactly the path variables, in order. -/
theorem matchSegs_fill (pv : Chars → Chars) :
    ∀ segs : List Seg, (∀ s ∈ segs, varNonempty pv s = true) →
      matchSegs segs (segs.map (fillSeg pv)) =
        some (segs.filterMap fun s =>
          match s with
          | .var n => some (n, pv n)
          | .lit _ => none) := by
  intro segs
  induction segs with
  | nil => intro _; rfl
  | cons s rest ih =>
    intro h
    have hrest := fun s2 hs2 => h s2 (List.mem_cons_of_mem s hs2)
    cases s with
    | lit l =>
      simp [matchSegs, fillSeg, ih hrest, List.filterMap_cons]
    | var n =>
      have hn : pv n ≠ [] := by
        have h1 := h (.var n) (List.mem_cons_self _ _)
        simpa [varNonempty, List.isEmpty_iff] using h1
      simp [matchSegs, fillSeg, hn, ih hrest, List.filterMap_cons]

/-- Helper: looking a key up in an association list built over keys without
duplicates recovers that key's value. -/
theorem lookupQ_map_self (f : Chars → Chars) :
    ∀ l : List (Chars × Chars), (l.map Prod.fst).Nodup →
      ∀ kd ∈ l, lookupQ kd.1 (l.map fun p => (p.1, f p.1)) = some (f kd.1) := by
  intro l
  induction l with
  | nil => intro _ kd hkd; simp at hkd
  | cons p rest ih =>
    intro hnd kd hkd
    simp only [List.map_cons, List.nodup_cons] at hnd
    rcases List.mem_cons.mp hkd with rfl | hmem
    · simp [lookupQ]
    · have hne : ¬ p.1 = kd.1 := by
        intro hpk
        exact hnd.1 (hpk ▸ List.mem_map_of_mem Prod.fst hmem)
      simp [lookupQ, hne, ih hnd.2 kd hmem]

/-! ## Theorems -/

/-- C1: matching `"api://users?version=2&limit=50"` against the template
`"api://{endpoint}{?version,limit,offset}"` binds `endpoint="users"`, takes
`version=2` and `limit=50` from the query string and binds the omitted
recognized key `offset` to its declared default `0`; dispatching the URI
invokes `call_api` with the coerced values, so the handler returns
`{endpoint: "users", version: 2, limit: 50, offset: 0}`. -/
theorem call_api_query_defaults :
    matchURI apiTemplate "api://users?version=2&limit=50".toList =
      some ([("endpoint".toList, "users".toList)],
            [("version".toList, "2".toList),
             ("limit".toList, "50".toList),
             ("offset".toList, "0".toList)]) ∧
    dispatch_call_api "api://users?version=2&limit=50" =
      .ok [("endpoint", .vStr "users"), ("version", .vInt 2),
           ("limit", .vInt 50), ("offset", .vInt 0)] := by
  constructor <;> rfl

/-- C3: for an elicitation opened with `expected_shape = string` (the second
`ctx.elicit` of `pattern_example`, `response_type=str`), an accept carrying
a non-string payload resolves the session to `Cancelled{}`, and the handler
continues normally, returning "Operation cancelled" — never a crash. -/
theorem shape_mismatch_resolves_cancelled :
    resolve .stringShape (.accept (some (.intP 7))) = .cancelled ∧
    pattern_example (.accept none) (.accept (some (.intP 7))) =
      "Operation cancelled" := by
  constructor <;> rfl

/-- C5: for the spec `width: int, ge=1, le=2000, default=800` declared on
`process_image`, coercing an input that omits `width` yields `width=800`
(both for the isolated width spec on `{}` and for the full parameter list);
coercing `width=3000` fails with `ConstraintViolation(width, le)`, and the
dispatcher reports any coercion error without invoking the handler. -/
theorem process_image_width_coercion :
    coerce [] [widthSpec] = .ok [("width", .vInt 800)] ∧
    coerce [("image_url", .vStr "http://x/i.png")] processImageSpecs =
      .ok [("image_url", .vStr "http://x/i.png"), ("resize", .vBool false),
           ("width", .vInt 800), ("format", .vStr "jpeg")] ∧
    coerce [("width", .vInt 3000)] [widthSpec] =
      .error (.constraintViolation "width" "le") ∧
    dispatch_process_image
        [("image_url", .vStr "http://x/i.png"), ("width", .vInt 3000)] =
      .coercionFailed (.constraintViolation "width" "le") ∧
    (∀ raw e, coerce raw processImageSpecs = .error e →
      dispatch_process_image raw = .coercionFailed e) := by
  refine ⟨rfl, rfl, rfl, rfl, fun raw e h => ?_⟩
  simp [dispatch_process_image, h]

/-- Closed instance of `process_image_width_coercion`: its last conjunct
applied to the concrete failing input `{image_url: ..., width: 3000}`. -/
theorem process_image_width_coercion_witness :
    dispatch_process_image
        [("image_url", .vStr "http://x/i.png"), ("width", .vInt 3000)] =
      .coercionFailed (.constraintViolation "width" "le") :=
  process_image_width_coercion.2.2.2.2
    [("image_url", .vStr "http://x/i.png"), ("width", .vInt 3000)]
    (.constraintViolation "width" "le") rfl

/-- C6: matching `"users://42/profile"` against the template
`"users://{user_id}/profile"` extracts `user_id = "42"` as a string at the
matcher layer, and dispatch coerces it to the integer `42` against the
handler's declared `int` parameter before `get_user_profile` runs. -/
theorem user_profile_path_coercion :
    matchURI usersTemplate "users://42/profile".toList =
      some ([("user_id".toList, "42".toList)], []) ∧
    coerce (rawOfBindings [("user_id".toList, "42".toList)] []) userProfileSpecs =
      .ok [("user_id", .vInt 42)] ∧
    dispatch_get_user_profile "users://42/profile" =
      .ok [("id", .vInt 42), ("name", .vStr "User 42"),
           ("status", .vStr "active")] := by
  refine ⟨rfl, rfl, rfl⟩

/-- C2: the elicitation session machine: `elicit` moves `Idle` to
`AwaitingResponse`; a valid accept resolves to `Accepted{data}`, decline to
`Declined{}`, and cancel / channel close / timeout to `Cancelled{}`;
`Resolved` is terminal, so no run starting from one resolved outcome ever
reaches a different one; and `pattern_example` receives `Declined` and
`Cancelled` as ordinary return values, always running to a normal string
result by branching on the outcome. -/
theorem elicitation_session_machine :
    (∀ p sh, step .idle (.elicit p sh) = some (.awaitingResponse sh)) ∧
    (∀ sh p d, shapeAccepts sh p = some d →
      step (.awaitingResponse sh) (.respond (.accept p)) =
        some (.resolved (.accepted d))) ∧
    (∀ sh, step (.awaitingResponse sh) (.respond .decline) =
      some (.resolved .declined)) ∧
    (∀ sh r, (r = .cancel ∨ r = .channelClosed ∨ r = .timeout) →
      step (.awaitingResponse sh) (.respond r) =
        some (.resolved .cancelled)) ∧
    (∀ o es s2, runSession (.resolved o) es = some s2 → s2 = .resolved o) ∧
    (∀ r1 r2, pattern_example r1 r2 = "Action not approved" ∨
      pattern_example r1 r2 = "No name provided" ∨
      pattern_example r1 r2 = "Operation cancelled" ∨
      ∃ s, pattern_example r1 r2 = "Hello " ++ s ++ "!") := by
  refine ⟨fun p sh => rfl, fun sh p d h => ?_, fun sh => rfl,
    fun sh r h => ?_, fun o es s2 h => ?_, fun r1 r2 => ?_⟩
  · simp [step, resolve, h]
  · rcases h with h | h | h <;> subst h <;> rfl
  · cases es with
    | nil =>
      have h2 : SessionState.resolved o = s2 := by simpa [runSession] using h
      exact h2.symm
    | cons e es => simp [runSession, step] at h
  · unfold pattern_example
    by_cases h1 : resolve .noShape r1 = .declined
    · simp [h1]
    · rcases ho : resolve .stringShape r2 with d | _ | _
      · refine Or.inr (Or.inr (Or.inr ⟨dataString d, ?_⟩))
        simp [h1, ho]
      · simp [h1, ho]
      · simp [h1, ho]

/-- Closed instance of `elicitation_session_machine`: the valid-accept
transition at a concrete string payload and the cancel transition at a
concrete cancel response. -/
theorem elicitation_session_machine_witness :
    step (.awaitingResponse .stringShape)
        (.respond (.accept (some (.strP "Bob")))) =
      some (.resolved (.accepted (.strP "Bob"))) ∧
    step (.awaitingResponse .noShape) (.respond .cancel) =
      some (.resolved .cancelled) ∧
    SessionState.resolved .declined = .resolved .declined :=
  ⟨elicitation_session_machine.2.1 .stringShape (some (.strP "Bob"))
      (.strP "Bob") rfl,
   elicitation_session_machine.2.2.2.1 .noShape .cancel (Or.inl rfl),
   elicitation_session_machine.2.2.2.2.1 .declined [] (.resolved .declined) rfl⟩

/-- C10: in `pattern_example`, only a `Declined` first outcome
short-circuits to "Action not approved"; otherwise (first outcome `Accepted`
or `Cancelled`) the handler opens the second elicitation and the result is
determined solely by the second outcome: the greeting on `Accepted`,
"No name provided" on `Declined`, "Operation cancelled" on `Cancelled`. -/
theorem pattern_example_control_flow (r1 r2 : CallerResponse) :
    (resolve .noShape r1 = .declined →
      pattern_example r1 r2 = "Action not approved") ∧
    (resolve .noShape r1 ≠ .declined →
      (∀ d, resolve .stringShape r2 = .accepted d →
        pattern_example r1 r2 = "Hello " ++ dataString d ++ "!") ∧
      (resolve .stringShape r2 = .declined →
        pattern_example r1 r2 = "No name provided") ∧
      (resolve .stringShape r2 = .cancelled →
        pattern_example r1 r2 = "Operation cancelled")) := by
  refine ⟨fun h1 => by simp [pattern_example, h1], fun h1 =>
    ⟨fun d hd => ?_, fun hd => ?_, fun hd => ?_⟩⟩ <;>
    simp [pattern_example, h1, hd]

/-- Closed instance of `pattern_example_control_flow`: a declined first
response short-circuits; a cancelled first response proceeds to the second
elicitation, whose declined outcome decides the result. -/
theorem pattern_example_control_flow_witness :
    pattern_example .decline (.accept (some (.strP "Bob"))) =
      "Action not approved" ∧
    pattern_example .cancel .decline = "No name provided" :=
  ⟨(pattern_example_control_flow .decline (.accept (some (.strP "Bob")))).1 rfl,
   ((pattern_example_control_flow .cancel .decline).2 (by decide)).2.1 rfl⟩

/-- C4: every registered prompt's invocation envelope, whenever it produces
a result, is one or more messages each of the form
`{role: "user"|"assistant", content: string}` — for `generate_code_request`,
`analyze_data` and `roleplay_scenario` alike. -/
theorem prompts_return_messages :
    (∀ l t msgs, invoke_generate_code_request l t = some msgs →
      messagesOk msgs) ∧
    (∀ nums md th msgs, invoke_analyze_data nums md th = some msgs →
      messagesOk msgs) ∧
    (∀ c s msgs, invoke_roleplay_scenario c s = some msgs →
      messagesOk msgs) := by
  refine ⟨fun l t msgs h => ?_, fun nums md th msgs h => ?_,
    fun c s msgs h => ?_⟩
  · cases h
    exact ⟨by simp, by simp [generate_code_request]⟩
  · rcases ha : analyze_data nums md th with _ | s
    · simp [invoke_analyze_data, ha] at h
    · simp only [invoke_analyze_data, ha, Option.map_some] at h
      cases h
      exact ⟨by simp, by simp⟩
  · cases h
    exact ⟨by simp [roleplay_scenario], by simp [roleplay_scenario]⟩

/-- Closed instance of `prompts_return_messages`: each conjunct applied at a
concrete invocation, the hypotheses evaluated definitionally. -/
theorem prompts_return_messages_witness :
    messagesOk [generate_code_request "Python" "sort a list"] ∧
    messagesOk [Message.mk "user" "Average: 3, above threshold: True"] ∧
    messagesOk (roleplay_scenario "a pirate" "a storm") :=
  ⟨prompts_return_messages.1 "Python" "sort a list" _ rfl,
   prompts_return_messages.2.1 [2, 4] [] 1 _
     (by simp [invoke_analyze_data, analyze_data]; norm_num; rfl),
   prompts_return_messages.2.2 "a pirate" "a storm" _ rfl⟩

/-- C9: `analyze_data` divides by `len(numbers)` unguarded, so invoking it
with the empty list fails (no result), and any successful result implies the
precondition that `numbers` is non-empty. -/
theorem analyze_data_requires_nonempty :
    (∀ md th, analyze_data [] md th = none) ∧
    (∀ nums md th s, analyze_data nums md th = some s → nums ≠ []) := by
  refine ⟨fun md th => rfl, fun nums md th s h hnil => ?_⟩
  subst hnil
  simp [analyze_data] at h

/-- Closed instance of `analyze_data_requires_nonempty`: the success branch
at the concrete non-empty input `[2, 4]`. -/
theorem analyze_data_requires_nonempty_witness :
    ([2, 4] : List Int) ≠ [] :=
  analyze_data_requires_nonempty.2 [2, 4] [] 1
    "Average: 3, above threshold: True"
    (by simp [analyze_data]; norm_num; rfl)

/-- Helper: a successful coercion means every parameter coerced. -/
theorem coerce_ok_all (raw : List (String × Value)) :
    ∀ specs m, coerce raw specs = .ok m →
      ∀ sp ∈ specs, ∃ v, coerceParam raw sp = .ok v := by
  intro specs
  induction specs with
  | nil => intro m _ sp hsp; simp at hsp
  | cons s rest ih =>
    intro m h sp hsp
    rcases hp : coerceParam raw s with e | v
    · simp only [coerce, hp] at h
      exact Except.noConfusion h
    · simp only [coerce, hp] at h
      rcases hr : coerce raw rest with e2 | tail
      · simp only [hr] at h
        exact Except.noConfusion h
      · simp only [hr] at h
        rcases List.mem_cons.mp hsp with rfl | hmem
        · exact ⟨v, hp⟩
        · exact ih tail hr sp hmem

/-- Helper: a failed coercion reports the error of the first parameter, in
spec order, whose per-parameter coercion fails; every earlier parameter
coerces. -/
theorem coerce_error_first (raw : List (String × Value)) :
    ∀ specs e, coerce raw specs = .error e →
      ∃ i, ∃ hi : i < specs.length,
        coerceParam raw (specs.get ⟨i, hi⟩) = .error e ∧
        ∀ j, ∀ hj : j < i, ∃ v,
          coerceParam raw (specs.get ⟨j, Nat.lt_trans hj hi⟩) = .ok v := by
  intro specs
  induction specs with
  | nil => intro e h; simp [coerce] at h
  | cons s rest ih =>
    intro e h
    rcases hp : coerceParam raw s with e1 | v
    · simp only [coerce, hp] at h
      injection h with h1
      subst h1
      refine ⟨0, Nat.succ_pos _, hp, ?_⟩
      intro j hj
      exact absurd hj (Nat.not_lt_zero j)
    · simp only [coerce, hp] at h
      rcases hr : coerce raw rest with e2 | tail
      · simp only [hr] at h
        injection h with h1
        subst h1
        obtain ⟨i, hi, hfail, hpre⟩ := ih e2 hr
        refine ⟨i + 1, Nat.succ_lt_succ hi, hfail, ?_⟩
        intro j hj
        cases j with
        | zero => exact ⟨v, hp⟩
        | succ j2 => exact hpre j2 (Nat.lt_of_succ_lt_succ hj)
      · simp only [hr] at h
        exact Except.noConfusion h

/-- C7: coercion is atomic and pure on every raw mapping and ordered spec
sequence: a success means every parameter coerced (so a single failing
parameter forbids any output mapping — and on the error path no mapping
exists at all, by the shape of `Except`), and a failure reports the
violation of the first parameter in spec order, with every earlier
parameter coercing cleanly, independent of the raw mapping's insertion
order. -/
theorem coerce_atomic_first_violation (raw : List (String × Value))
    (specs : List ParameterSpec) :
    (∀ m, coerce raw specs = .ok m →
      ∀ sp ∈ specs, ∃ v, coerceParam raw sp = .ok v) ∧
    (∀ e, coerce raw specs = .error e →
      ∃ i, ∃ hi : i < specs.length,
        coerceParam raw (specs.get ⟨i, hi⟩) = .error e ∧
        ∀ j, ∀ hj : j < i, ∃ v,
          coerceParam raw (specs.get ⟨j, Nat.lt_trans hj hi⟩) = .ok v) :=
  ⟨fun m h => coerce_ok_all raw specs m h,
   fun e h => coerce_error_first raw specs e h⟩

/-- Closed instance of `coerce_atomic_first_violation`: on the raw input
`{width: 3000}` against `process_image`'s specs, the reported error is the
first spec-order violation (`image_url` missing, spec index 0), even though
the raw mapping's only (inserted) key `width` also violates its bound. -/
theorem coerce_atomic_first_violation_witness :
    ∃ i, ∃ hi : i < processImageSpecs.length,
      coerceParam [("width", Value.vInt 3000)]
          (processImageSpecs.get ⟨i, hi⟩) =
        .error (.missingParameter "image_url") ∧
      ∀ j, ∀ hj : j < i, ∃ v,
        coerceParam [("width", Value.vInt 3000)]
          (processImageSpecs.get ⟨j, Nat.lt_trans hj hi⟩) = .ok v :=
  (coerce_atomic_first_violation [("width", Value.vInt 3000)]
    processImageSpecs).2 (.missingParameter "image_url") rfl

/-- C8: the round-trip law: for every valid compiled template and every
assignment of its path and query variables (non-empty separator-free path
values, duplicate-free delimiter-free query keys, `&`-free query values),
generating the concrete URI and matching it back against the same template
recovers exactly the assignment: the path bindings in order of appearance
and every recognized query key bound to its assigned value. -/
theorem match_generate_roundtrip (t : Template) (pv qv : Chars → Chars)
    (hsegs : t.segs ≠ [])
    (hfill : ∀ s ∈ t.segs, '/' ∉ fillSeg pv s ∧ '?' ∉ fillSeg pv s ∧
      varNonempty pv s = true)
    (hnd : (t.queryKeys.map Prod.fst).Nodup)
    (hq : ∀ kd ∈ t.queryKeys, '&' ∉ kd.1 ∧ '=' ∉ kd.1 ∧ '&' ∉ qv kd.1) :
    matchURI t (generate t pv qv) =
      some (varBindings t pv, t.queryKeys.map fun kd => (kd.1, qv kd.1)) := by
  have hP_noq : '?' ∉ joinWith '/' (t.segs.map (fillSeg pv)) := by
    refine joinWith_not_mem '?' '/' (by decide) _ ?_
    intro xs hxs
    obtain ⟨s, hs, rfl⟩ := List.mem_map.mp hxs
    exact (hfill s hs).2.1
  have hsplitP : splitOnChar '/' (joinWith '/' (t.segs.map (fillSeg pv))) =
      t.segs.map (fillSeg pv) := by
    refine splitOnChar_joinWith '/' _ ?_ ?_
    · simpa using hsegs
    · intro xs hxs
      obtain ⟨s, hs, rfl⟩ := List.mem_map.mp hxs
      exact (hfill s hs).1
  have hmatch := matchSegs_fill pv t.segs (fun s hs => (hfill s hs).2.2)
  by_cases hqe : t.queryKeys = []
  · have hgen : generate t pv qv = joinWith '/' (t.segs.map (fillSeg pv)) := by
      simp [generate, hqe]
    rw [matchURI, hgen, breakAt_not_mem '?' _ hP_noq]
    simp only [hsplitP, hmatch, hqe, List.map_nil]
    rfl
  · have hqempty : t.queryKeys.isEmpty = false := by
      simpa [List.isEmpty_iff] using hqe
    have hgen : generate t pv qv = joinWith '/' (t.segs.map (fillSeg pv)) ++
        '?' :: joinWith '&' (t.queryKeys.map fun kd => kd.1 ++ '=' :: qv kd.1) := by
      simp [generate, hqempty]
    have hsplitQ : splitOnChar '&'
        (joinWith '&' (t.queryKeys.map fun kd => kd.1 ++ '=' :: qv kd.1)) =
        t.queryKeys.map fun kd => kd.1 ++ '=' :: qv kd.1 := by
      refine splitOnChar_joinWith '&' _ ?_ ?_
      · simpa using hqe
      · intro xs hxs
        obtain ⟨kd, hkd, rfl⟩ := List.mem_map.mp hxs
        intro hm
        rcases List.mem_append.mp hm with hm1 | hm2
        · exact (hq kd hkd).1 hm1
        · rcases List.mem_cons.mp hm2 with h1 | hm3
          · exact absurd h1 (by decide)
          · exact (hq kd hkd).2.2 hm3
    have hparse : parseQueryStr
        (joinWith '&' (t.queryKeys.map fun kd => kd.1 ++ '=' :: qv kd.1)) =
        t.queryKeys.map fun kd => (kd.1, qv kd.1) := by
      rw [parseQueryStr, hsplitQ, List.map_map]
      refine List.map_congr_left ?_
      intro kd hkd
      simp only [Function.comp_apply, parsePair,
        breakAt_append '=' kd.1 (qv kd.1) (hq kd hkd).2.1]
    rw [matchURI, hgen, breakAt_append '?' _ _ hP_noq]
    simp only [hsplitP, hmatch, hparse]
    have hbind : (t.queryKeys.map fun kd =>
        (kd.1, (lookupQ kd.1 (t.queryKeys.map fun kd2 => (kd2.1, qv kd2.1))).getD kd.2)) =
        t.queryKeys.map fun kd => (kd.1, qv kd.1) := by
      refine List.map_congr_left ?_
      intro kd hkd
      rw [lookupQ_map_self qv t.queryKeys hnd kd hkd]
      rfl
    simp only [hbind]
    rfl

/-- Closed instance of `match_generate_roundtrip`: the api template with the
assignment `endpoint=users, version=2, limit=50, offset=0`, every validity
hypothesis evaluated. -/
theorem match_generate_roundtrip_witness :
    matchURI apiTemplate (generate apiTemplate
        (fun n => if n = "endpoint".toList then "users".toList else ['x'])
        (fun k => if k = "version".toList then "2".toList
          else if k = "limit".toList then "50".toList else "0".toList)) =
      some (varBindings apiTemplate
          (fun n => if n = "endpoint".toList then "users".toList else ['x']),
        apiTemplate.queryKeys.map fun kd => (kd.1,
          (fun k => if k = "version".toList then "2".toList
            else if k = "limit".toList then "50".toList else "0".toList) kd.1)) :=
  match_generate_roundtrip apiTemplate
    (fun n => if n = "endpoint".toList then "users".toList else ['x'])
    (fun k => if k = "version".toList then "2".toList
      else if k = "limit".toList then "50".toList else "0".toList)
    (by decide) (by decide) (by decide) (by decide)
